import Mathlib

/-!
Verification of the `streamsdk-express` adapter.

The development shallowly embeds the `Checkout` Express handler
(`src/checkout.ts`): query parameters are `Option String` values, JS
truthiness is made explicit, and every remote call made through the
Stream SDK client is both answered by an explicit environment and
recorded in an ordered trace, so that claims about which remote calls
happen (and with which payloads) are provable.  The webhook dispatch
table is modelled from the specification, since the `Webhooks` handler
implementation itself is not part of the provided sources.
-/

namespace StreamSDK

/-- JS truthiness of a possibly-absent string: `undefined` and `""` are falsy. -/
def isTruthy : Option String → Bool
  | none => false
  | some s => !(s == "")

/-- JS `a || b` on possibly-absent strings: the first truthy operand, else `b`. -/
def jsOrStr (a b : Option String) : Option String :=
  if isTruthy a then a else b

/-- Consumer record returned by the remote directory; `phone_number` and
`email` may be absent (JS `undefined`). -/
structure Consumer where
  id : String
  phone_number : Option String := none
  email : Option String := none
  deriving DecidableEq

/-- Pagination envelope of a `listConsumers` response. -/
structure Pagination where
  has_next_page : Bool
  deriving DecidableEq

/-- Response of `listConsumers`; both `data` and `pagination` are reached via
optional chaining in the source, hence `Option`. -/
structure SearchResult where
  data : Option (List Consumer) := none
  pagination : Option Pagination := none
  deriving DecidableEq

/-- Payload of a `createConsumer` call (lines 152–162 of the handler). -/
structure CreateConsumerData where
  name : String
  phone_number : Option String := none
  email : Option String := none
  deriving DecidableEq

/-- A line item of the payment-link request: a product id with quantity 1. -/
structure Item where
  product_id : String
  quantity : Nat
  deriving DecidableEq

/-- The payment-link request body assembled by the handler. -/
structure PaymentLinkData where
  name : String
  items : List Item
  success_redirect_url : String
  failure_redirect_url : String
  coupons : List String
  organization_consumer_id : Option String := none
  metadata : Option String := none
  deriving DecidableEq

/-- Response of `createPaymentLink` (opaque to the handler except for the URL
extraction done by the SDK). -/
structure PaymentLink where
  id : String
  deriving DecidableEq

/-- One remote SDK call, with its payload, as recorded in the handler trace. -/
inductive RemoteCall where
  | listConsumers (page size : Nat) (search_term : Option String)
  | createConsumer (data : CreateConsumerData)
  | createPaymentLink (data : PaymentLinkData)
  deriving DecidableEq

/-- The environment answering the `streamClient` calls.  A `.error ()` result
models the remote call throwing.  `getPaymentUrl` is the SDK's local URL
extraction (string or `null`), and `parseMetadata` models
`JSON.parse(decodeURIComponent ·)`, with `none` for a thrown parse error. -/
structure Env where
  listConsumers : Nat → Nat → Option String → Except Unit SearchResult
  createConsumer : CreateConsumerData → Except Unit Consumer
  createPaymentLink : PaymentLinkData → Except Unit PaymentLink
  getPaymentUrl : PaymentLink → Option String
  parseMetadata : String → Option String

/-- Static configuration captured by the `Checkout` factory. -/
structure CheckoutConfig where
  successUrl : String
  returnUrl : Option String := none
  defaultName : Option String := none

/-- The checkout query parameters (`req.query`); absent parameters are `none`. -/
structure Query where
  products : Option String := none
  name : Option String := none
  customerId : Option String := none
  customerEmail : Option String := none
  customerName : Option String := none
  customerPhone : Option String := none
  metadata : Option String := none

/-- Outcome of one handler invocation: a direct JSON error response, a
redirect, or delegation to Express error middleware via `next(error)`. -/
inductive HResponse where
  | badRequest (error : String)
  | serverError (error : String)
  | redirect (url : String)
  | nextError
  deriving DecidableEq

/-- JS `split` on a character list: an empty input yields one empty segment,
and every separator occurrence starts a new segment. -/
def splitListOn (sep : Char) : List Char → List (List Char)
  | [] => [[]]
  | c :: cs =>
    if c == sep then [] :: splitListOn sep cs
    else
      match splitListOn sep cs with
      | [] => [[c]]
      | h :: t => (c :: h) :: t

/-- JS `s.split(',')`. -/
def jsSplitComma (s : String) : List String :=
  (splitListOn ',' s.data).map String.mk

/-- JS `s.trim()`: strip leading and trailing whitespace. -/
def jsTrim (s : String) : String :=
  String.mk (((s.data.dropWhile Char.isWhitespace).reverse.dropWhile
    Char.isWhitespace).reverse)

/-- Line 51: `products ? products.split(',').map(id => id.trim()) : []`. -/
def parseProductIds (products : Option String) : List String :=
  if isTruthy products then (jsSplitComma (products.getD "")).map jsTrim
  else []

/-- Lines 173–181: if `metadata` is truthy, URL-decode and JSON-parse it;
a parse failure (`none`) leaves the field absent. -/
def metadataField (env : Env) (metadata : Option String) : Option String :=
  if isTruthy metadata then env.parseMetadata (metadata.getD "") else none

/-- Lines 152–162: the `consumerData` payload for `createConsumer`, with
`phone_number` / `email` only set when the query values are truthy. -/
def consumerDataFrom (customerPhone customerEmail customerName : Option String) :
    CreateConsumerData :=
  { name := (jsOrStr customerName (some "Customer")).getD ""
    phone_number := if isTruthy customerPhone then customerPhone else none
    email := if isTruthy customerEmail then customerEmail else none }

/-- Lines 113–145: the pagination fallback.  Fetches page `page` (size 100, no
search term), stops at the first match, at the last page, or once the page
counter passes 50; a fetch failure propagates (there is no try/catch around
this loop in the source). -/
@[irreducible]
def paginateFrom (env : Env) (matcher : Consumer → Bool) (page : Nat) :
    Except Unit (Option Consumer) × List RemoteCall :=
  match env.listConsumers page 100 none with
  | .error e => (.error e, [.listConsumers page 100 none])
  | .ok r =>
    match r.data.bind (List.find? matcher) with
    | some c => (.ok (some c), [.listConsumers page 100 none])
    | none =>
      if h : page + 1 > 50 then
        (.ok none, [.listConsumers page 100 none])
      else
        if (r.pagination.map Pagination.has_next_page).getD false then
          let rest := paginateFrom env matcher (page + 1)
          (rest.1, .listConsumers page 100 none :: rest.2)
        else
          (.ok none, [.listConsumers page 100 none])
termination_by 51 - page
decreasing_by omega

/-- Lines 82–94, strategy 1: search by phone; the exact-phone filter is
`c.phone_number === customerPhone`; a thrown search is caught (no match). -/
def strategy1 (env : Env) (customerPhone : Option String) :
    Option Consumer × List RemoteCall :=
  if isTruthy customerPhone then
    match env.listConsumers 1 100 customerPhone with
    | .error _ => (none, [.listConsumers 1 100 customerPhone])
    | .ok r =>
      (r.data.bind (List.find? fun c => c.phone_number == customerPhone),
        [.listConsumers 1 100 customerPhone])
  else (none, [])

/-- Lines 97–111, strategy 2: search by email; accepts
`c.email === customerEmail || c.phone_number === customerPhone`; a thrown
search is caught (no match). -/
def strategy2 (env : Env) (customerPhone customerEmail : Option String)
    (prev : Option Consumer) : Option Consumer × List RemoteCall :=
  if prev.isNone && isTruthy customerEmail then
    match env.listConsumers 1 100 customerEmail with
    | .error _ => (none, [.listConsumers 1 100 customerEmail])
    | .ok r =>
      (r.data.bind (List.find? fun c =>
          c.email == customerEmail || c.phone_number == customerPhone),
        [.listConsumers 1 100 customerEmail])
  else (prev, [])

/-- Lines 126–129: the pagination match predicate,
`(customerPhone && c.phone_number === customerPhone) ||
(customerEmail && c.email === customerEmail)`. -/
def pageMatcher (customerPhone customerEmail : Option String) (c : Consumer) : Bool :=
  (isTruthy customerPhone && c.phone_number == customerPhone)
    || (isTruthy customerEmail && c.email == customerEmail)

/-- Lines 113–145, strategy 3 entry: run the pagination fallback when the
searches found nothing and a phone or email is present. -/
def strategy3 (env : Env) (customerPhone customerEmail : Option String)
    (prev : Option Consumer) : Except Unit (Option Consumer) × List RemoteCall :=
  if prev.isNone && (isTruthy customerPhone || isTruthy customerEmail) then
    paginateFrom env (pageMatcher customerPhone customerEmail) 1
  else (.ok prev, [])

/-- Lines 147–166: use the match if any, else create a consumer when
`customerName` is truthy (`some id` = resolved id, `none` = fall through). -/
def createStep (env : Env) (customerPhone customerEmail customerName : Option String) :
    Except Unit (Option String) × List RemoteCall :=
  if isTruthy customerName then
    let consumerData := consumerDataFrom customerPhone customerEmail customerName
    match env.createConsumer consumerData with
    | .error e => (.error e, [.createConsumer consumerData])
    | .ok nc => (.ok (some nc.id), [.createConsumer consumerData])
  else (.ok none, [])

/-- Lines 79–166: the body of the `if (!consumerId && (customerPhone ||
customerEmail))` block; returns the resolved consumer id (`some`) or `none`
when the block leaves `consumerId` untouched. -/
def resolveBlock (env : Env) (customerPhone customerEmail customerName : Option String) :
    Except Unit (Option String) × List RemoteCall :=
  let s1 := strategy1 env customerPhone
  let s2 := strategy2 env customerPhone customerEmail s1.1
  let s3 := strategy3 env customerPhone customerEmail s2.1
  match s3.1 with
  | .error e => (.error e, s1.2 ++ s2.2 ++ s3.2)
  | .ok (some c) => (.ok (some c.id), s1.2 ++ s2.2 ++ s3.2)
  | .ok none =>
    let cs := createStep env customerPhone customerEmail customerName
    (cs.1, s1.2 ++ s2.2 ++ s3.2 ++ cs.2)

/-- Lines 75–167: `let consumerId = customerId`, then the resolution block
when `customerId` is falsy and some customer contact detail is truthy. -/
def resolveConsumer (env : Env)
    (customerId customerPhone customerEmail customerName : Option String) :
    Except Unit (Option String) × List RemoteCall :=
  if !(isTruthy customerId) && (isTruthy customerPhone || isTruthy customerEmail) then
    let r := resolveBlock env customerPhone customerEmail customerName
    (r.1.map fun res =>
      match res with
      | some i => some i
      | none => customerId, r.2)
  else (.ok customerId, [])

/-- Lines 60–72 and 169–181: the payment-link request body, given the resolved
consumer id (attached only when truthy, line 169). -/
def paymentLinkDataOf (env : Env) (cfg : CheckoutConfig) (now : Nat) (q : Query)
    (consumerId : Option String) : PaymentLinkData :=
  { name := (jsOrStr (jsOrStr q.name cfg.defaultName)
      (some ("Checkout " ++ toString now))).getD ""
    items := (parseProductIds q.products).map fun i => { product_id := i, quantity := 1 }
    success_redirect_url := cfg.successUrl
    failure_redirect_url := (jsOrStr cfg.returnUrl (some cfg.successUrl)).getD ""
    coupons := []
    organization_consumer_id := if isTruthy consumerId then consumerId else none
    metadata := metadataField env q.metadata }

/-- The `Checkout` handler (lines 38–198): returns the HTTP outcome and the
ordered trace of remote SDK calls.  `now` stands for `Date.now()`. -/
def Checkout (env : Env) (cfg : CheckoutConfig) (now : Nat) (q : Query) :
    HResponse × List RemoteCall :=
  let productIds := parseProductIds q.products
  if productIds.length == 0 then
    (.badRequest "At least one product ID is required", [])
  else
    match resolveConsumer env q.customerId q.customerPhone q.customerEmail q.customerName with
    | (.error _, t) => (.nextError, t)
    | (.ok consumerId, t) =>
      let data := paymentLinkDataOf env cfg now q consumerId
      match env.createPaymentLink data with
      | .error _ => (.nextError, t ++ [.createPaymentLink data])
      | .ok link =>
        let paymentUrl := env.getPaymentUrl link
        if isTruthy paymentUrl then
          (.redirect (paymentUrl.getD ""), t ++ [.createPaymentLink data])
        else
          (.serverError "Failed to generate payment URL", t ++ [.createPaymentLink data])

/-! ## Webhook dispatch, modelled from the spec -/

/-- The callbacks a `WebhookConfig` can register, one per table row. -/
inductive CallbackKey where
  | onPaymentCreated
  | onPaymentCompleted
  | onPaymentFailed
  | onSubscriptionCreated
  | onSubscriptionUpdated
  | onSubscriptionCancelled
  | onInvoiceCreated
  | onInvoicePaid
  deriving DecidableEq, BEq

/-- Modelled from the spec: the `Webhooks` handler implementation is not under
the provided sources (only its README event table, type declarations and
example callers are), so the event-name to callback routing table of spec §6 /
README "Supported Events" is embedded directly. -/
def routeEvent : String → Option CallbackKey
  | "payment.created" => some .onPaymentCreated
  | "payment.completed" => some .onPaymentCompleted
  | "payment.paid" => some .onPaymentCompleted
  | "payment.failed" => some .onPaymentFailed
  | "subscription.created" => some .onSubscriptionCreated
  | "subscription.updated" => some .onSubscriptionUpdated
  | "subscription.cancelled" => some .onSubscriptionCancelled
  | "invoice.created" => some .onInvoiceCreated
  | "invoice.paid" => some .onInvoicePaid
  | _ => none

/-- Which callbacks a webhook config registers: the specific per-event fields
plus the optional `onWebhook` catch-all. -/
structure WebhookConfigM where
  registered : CallbackKey → Bool
  catchAll : Bool

/-- One callback invocation performed for a delivery. -/
inductive Invocation where
  | specific (k : CallbackKey)
  | catchAllCall (event : String)
  deriving DecidableEq, BEq

/-- Modelled from the spec (§4.2 steps 3–4): for one verified delivery, invoke
the registered specific callback for the routed event name, then the
catch-all if registered. -/
def dispatch (cfg : WebhookConfigM) (event : String) : List Invocation :=
  (match routeEvent event with
    | some k => if cfg.registered k then [Invocation.specific k] else []
    | none => []) ++
  (if cfg.catchAll then [Invocation.catchAllCall event] else [])

/-! ## Call classification and concrete test data -/

/-- Recognize a `createPaymentLink` call in a trace. -/
def isCreatePaymentLinkCall : RemoteCall → Bool
  | .createPaymentLink _ => true
  | _ => false

/-- Recognize a `createConsumer` call in a trace. -/
def isCreateConsumerCall : RemoteCall → Bool
  | .createConsumer _ => true
  | _ => false

/-- Recognize any `listConsumers` call in a trace. -/
def isListConsumersCall : RemoteCall → Bool
  | .listConsumers _ _ _ => true
  | _ => false

/-- Recognize a pagination-fallback fetch: a `listConsumers` call with no
search term. -/
def isPageFetch : RemoteCall → Bool
  | .listConsumers _ _ none => true
  | _ => false

/-- A consumer-creation responder shared by the concrete environments. -/
def constCreateConsumer : CreateConsumerData → Except Unit Consumer :=
  fun _ => .ok { id := "cons_new" }

/-- A minimal checkout configuration for concrete evaluations. -/
def testCfg : CheckoutConfig := { successUrl := "https://app.example/success" }

/-- Environment whose directory is empty and whose remote calls all succeed. -/
def okEmptyEnv : Env where
  listConsumers := fun _ _ _ =>
    .ok { data := some [], pagination := some { has_next_page := false } }
  createConsumer := constCreateConsumer
  createPaymentLink := fun _ => .ok { id := "link_1" }
  getPaymentUrl := fun l => some ("https://pay.example/" ++ l.id)
  parseMetadata := fun _ => none

/-- A remote consumer record carrying neither a phone number nor an email. -/
def ghostConsumer : Consumer := { id := "cons_ghost" }

/-- Environment whose term searches return only `ghostConsumer`. -/
def ghostEnv : Env where
  listConsumers := fun _ _ term =>
    match term with
    | some _ =>
      .ok { data := some [ghostConsumer], pagination := some { has_next_page := false } }
    | none => .ok { data := some [], pagination := some { has_next_page := false } }
  createConsumer := constCreateConsumer
  createPaymentLink := fun _ => .ok { id := "link_g" }
  getPaymentUrl := fun l => some ("https://pay.example/" ++ l.id)
  parseMetadata := fun _ => none

/-- Environment whose every `listConsumers` call throws. -/
def throwEnv : Env where
  listConsumers := fun _ _ _ => .error ()
  createConsumer := constCreateConsumer
  createPaymentLink := fun _ => .ok { id := "link_t" }
  getPaymentUrl := fun l => some ("https://pay.example/" ++ l.id)
  parseMetadata := fun _ => none

/-- Environment where term searches throw but pagination pages succeed. -/
def searchFailEnv : Env where
  listConsumers := fun _ _ term =>
    match term with
    | some _ => .error ()
    | none => .ok { data := some [], pagination := some { has_next_page := false } }
  createConsumer := constCreateConsumer
  createPaymentLink := fun _ => .ok { id := "link_s" }
  getPaymentUrl := fun l => some ("https://pay.example/" ++ l.id)
  parseMetadata := fun _ => none

/-- Environment identical to `searchFailEnv` except that term searches return
an empty result set instead of throwing. -/
def searchEmptyEnv : Env where
  listConsumers := fun _ _ term =>
    match term with
    | some _ => .ok { data := some [], pagination := none }
    | none => .ok { data := some [], pagination := some { has_next_page := false } }
  createConsumer := constCreateConsumer
  createPaymentLink := fun _ => .ok { id := "link_s" }
  getPaymentUrl := fun l => some ("https://pay.example/" ++ l.id)
  parseMetadata := fun _ => none

/-- Environment simulating an unbounded directory: every page is non-final. -/
def relentlessEnv : Env where
  listConsumers := fun _ _ _ =>
    .ok { data := some [], pagination := some { has_next_page := true } }
  createConsumer := constCreateConsumer
  createPaymentLink := fun _ => .ok { id := "link_r" }
  getPaymentUrl := fun l => some ("https://pay.example/" ++ l.id)
  parseMetadata := fun _ => none

/-- Query whose `products` value is a single space (whitespace only). -/
def qWhitespace : Query := { products := some " " }

/-- Query whose `products` value has a trailing comma. -/
def qTrailingComma : Query := { products := some "a," }

/-- Query with a product and a customer name but no phone, email or id. -/
def qNameOnly : Query := { products := some "p", customerName := some "Ahmad" }

/-- Query with a product and a customer email only. -/
def qEmailOnly : Query := { products := some "p", customerEmail := some "a@b.c" }

/-- Query with a product and a customer phone only. -/
def qPhoneOnly : Query :=
  { products := some "p", customerPhone := some "+966501234567" }

/-- Query with a product, a customer phone and a customer name. -/
def qCreate : Query :=
  { products := some "p", customerPhone := some "+966501234567",
    customerName := some "Ahmad" }

/-- Query supplying `customerId` together with every other customer field. -/
def qFull : Query :=
  { products := some "p", customerId := some "cons_7",
    customerEmail := some "a@b.c", customerName := some "Ahmad",
    customerPhone := some "+966501234567", metadata := some "x" }

/-- Query with a product and a malformed `metadata` value. -/
def qMeta : Query := { products := some "p", metadata := some "not-json" }

/-- A webhook configuration registering every callback and the catch-all. -/
def allHandlersCfg : WebhookConfigM := { registered := fun _ => true, catchAll := true }

/-! ## Helper lemmas -/

theorem splitListOn_ne_nil (sep : Char) : ∀ cs, splitListOn sep cs ≠ [] := by
  intro cs
  induction cs with
  | nil => simp [splitListOn]
  | cons c cs ih =>
    simp only [splitListOn]
    split
    · simp
    · split
      · simp
      · simp

theorem isTruthy_exists {o : Option String} (h : isTruthy o = true) :
    ∃ s, o = some s ∧ s ≠ "" := by
  cases o with
  | none => simp [isTruthy] at h
  | some s =>
    refine ⟨s, rfl, ?_⟩
    simp [isTruthy] at h
    exact h

theorem attached_id_ne_empty (c : Option String) :
    (if isTruthy c then c else none) ≠ some "" := by
  cases c with
  | none => simp
  | some s =>
    by_cases hs : s = ""
    · subst hs
      simp [isTruthy]
    · simp only [isTruthy]
      split
      · simp [hs]
      · simp

theorem parseProductIds_ne_nil (products : Option String)
    (h : isTruthy products = true) :
    ((parseProductIds products).length == 0) = false := by
  simp only [parseProductIds, h, if_true, jsSplitComma, List.length_map]
  have := List.length_pos.mpr (splitListOn_ne_nil ',' (products.getD "").data)
  simp only [beq_eq_false_iff_ne, ne_eq]
  omega

theorem paginateFrom_calls (env : Env) (matcher : Consumer → Bool) :
    ∀ page, ∀ c ∈ (paginateFrom env matcher page).2,
      ∃ pg, c = RemoteCall.listConsumers pg 100 none := by
  intro page
  induction page using paginateFrom.induct env matcher with
  | case1 x e h =>
    intro c hc
    rw [paginateFrom] at hc
    simp [h] at hc
    exact ⟨x, hc⟩
  | case2 x r h c0 hc0 =>
    intro c hc
    rw [paginateFrom] at hc
    simp [h, hc0] at hc
    exact ⟨x, hc⟩
  | case3 x r h hfind hgt =>
    intro c hc
    rw [paginateFrom] at hc
    simp [h, hfind, dif_pos hgt] at hc
    exact ⟨x, hc⟩
  | case4 x r h hfind hle hmore ih =>
    intro c hc
    rw [paginateFrom] at hc
    simp [h, hfind, dif_neg hle, hmore] at hc
    rcases hc with hc | hc
    · exact ⟨x, hc⟩
    · exact ih c hc
  | case5 x r h hfind hle hmore =>
    intro c hc
    rw [paginateFrom] at hc
    simp [h, hfind, dif_neg hle, hmore] at hc
    exact ⟨x, hc⟩

theorem paginateFrom_length (env : Env) (matcher : Consumer → Bool) :
    ∀ page, page ≤ 50 → (paginateFrom env matcher page).2.length ≤ 51 - page := by
  intro page
  induction page using paginateFrom.induct env matcher with
  | case1 x e h =>
    intro hx
    rw [paginateFrom]
    simp [h]
    omega
  | case2 x r h c0 hc0 =>
    intro hx
    rw [paginateFrom]
    simp [h, hc0]
    omega
  | case3 x r h hfind hgt =>
    intro hx
    rw [paginateFrom]
    simp [h, hfind, dif_pos hgt]
    omega
  | case4 x r h hfind hle hmore ih =>
    intro hx
    rw [paginateFrom]
    simp [h, hfind, dif_neg hle, hmore]
    have := ih (by omega)
    omega
  | case5 x r h hfind hle hmore =>
    intro hx
    rw [paginateFrom]
    simp [h, hfind, dif_neg hle, hmore]
    omega

theorem paginateFrom_congr (env env2 : Env) (matcher : Consumer → Bool)
    (hagree : ∀ p, env.listConsumers p 100 none = env2.listConsumers p 100 none) :
    ∀ page, paginateFrom env matcher page = paginateFrom env2 matcher page := by
  intro page
  induction page using paginateFrom.induct env matcher with
  | case1 x e h =>
    conv_lhs => rw [paginateFrom]
    conv_rhs => rw [paginateFrom]
    rw [← hagree x]
    simp [h]
  | case2 x r h c0 hc0 =>
    conv_lhs => rw [paginateFrom]
    conv_rhs => rw [paginateFrom]
    rw [← hagree x]
    simp [h, hc0]
  | case3 x r h hfind hgt =>
    conv_lhs => rw [paginateFrom]
    conv_rhs => rw [paginateFrom]
    rw [← hagree x]
    simp [h, hfind, dif_pos hgt]
  | case4 x r h hfind hle hmore ih =>
    conv_lhs => rw [paginateFrom]
    conv_rhs => rw [paginateFrom]
    rw [← hagree x]
    simp [h, hfind, dif_neg hle, hmore, ih]
  | case5 x r h hfind hle hmore =>
    conv_lhs => rw [paginateFrom]
    conv_rhs => rw [paginateFrom]
    rw [← hagree x]
    simp [h, hfind, dif_neg hle, hmore]

theorem paginateFrom_relentless (matcher : Consumer → Bool) :
    ∀ page, 1 ≤ page → page ≤ 50 →
      (paginateFrom relentlessEnv matcher page).1 = .ok none
      ∧ (paginateFrom relentlessEnv matcher page).2.length = 51 - page := by
  intro page
  induction page using paginateFrom.induct relentlessEnv matcher with
  | case1 x e h =>
    intro h1 h50
    simp [relentlessEnv] at h
  | case2 x r h c0 hc0 =>
    intro h1 h50
    simp only [relentlessEnv] at h
    injection h with h2
    subst h2
    simp at hc0
  | case3 x r h hfind hgt =>
    intro h1 h50
    constructor
    · rw [paginateFrom]
      simp [h, hfind, dif_pos hgt]
    · rw [paginateFrom]
      simp [h, hfind, dif_pos hgt]
      omega
  | case4 x r h hfind hle hmore ih =>
    intro h1 h50
    have hx : x + 1 ≤ 50 := by omega
    have hih := ih (by omega) hx
    constructor
    · rw [paginateFrom]
      simp [h, hfind, dif_neg hle, hmore, hih.1]
    · rw [paginateFrom]
      simp [h, hfind, dif_neg hle, hmore, hih.2]
      omega
  | case5 x r h hfind hle hmore =>
    intro h1 h50
    simp only [relentlessEnv] at h
    injection h with h2
    subst h2
    simp at hmore

theorem strategy1_calls (env : Env) (p : Option String) :
    ∀ c ∈ (strategy1 env p).2,
      c = RemoteCall.listConsumers 1 100 p ∧ isTruthy p = true := by
  intro c hc
  cases hp : isTruthy p with
  | false => simp [strategy1, hp] at hc
  | true =>
    cases henv : env.listConsumers 1 100 p with
    | error err =>
      simp [strategy1, hp, henv] at hc
      exact ⟨hc, rfl⟩
    | ok r =>
      simp [strategy1, hp, henv] at hc
      exact ⟨hc, rfl⟩

theorem strategy2_calls (env : Env) (p e : Option String) (prev : Option Consumer) :
    ∀ c ∈ (strategy2 env p e prev).2,
      c = RemoteCall.listConsumers 1 100 e ∧ isTruthy e = true := by
  intro c hc
  cases hg : prev.isNone && isTruthy e with
  | false => simp [strategy2, hg] at hc
  | true =>
    have he : isTruthy e = true := by
      rcases Bool.and_eq_true_iff.mp hg with ⟨-, h⟩
      exact h
    cases henv : env.listConsumers 1 100 e with
    | error err =>
      simp [strategy2, hg, henv] at hc
      exact ⟨hc, he⟩
    | ok r =>
      simp [strategy2, hg, henv] at hc
      exact ⟨hc, he⟩

theorem strategy3_calls (env : Env) (p e : Option String) (prev : Option Consumer) :
    ∀ c ∈ (strategy3 env p e prev).2,
      ∃ pg, c = RemoteCall.listConsumers pg 100 none := by
  intro c hc
  rw [strategy3] at hc
  split at hc
  · exact paginateFrom_calls env _ 1 c hc
  · simp at hc

theorem strategy3_length (env : Env) (p e : Option String) (prev : Option Consumer) :
    (strategy3 env p e prev).2.length ≤ 50 := by
  rw [strategy3]
  split
  · have := paginateFrom_length env (pageMatcher p e) 1 (by omega)
    omega
  · simp

theorem createStep_calls (env : Env) (p e n : Option String) :
    ∀ c ∈ (createStep env p e n).2,
      c = RemoteCall.createConsumer (consumerDataFrom p e n) := by
  intro c hc
  cases hn : isTruthy n with
  | false => simp [createStep, hn] at hc
  | true =>
    cases henv : env.createConsumer (consumerDataFrom p e n) with
    | error err =>
      simp [createStep, hn, henv] at hc
      exact hc
    | ok nc =>
      simp [createStep, hn, henv] at hc
      exact hc

theorem resolveBlock_no_paymentLink (env : Env) (p e n : Option String) :
    ∀ c ∈ (resolveBlock env p e n).2, isCreatePaymentLinkCall c = false := by
  intro c hc
  have covered : c ∈ (strategy1 env p).2
      ∨ c ∈ (strategy2 env p e (strategy1 env p).1).2
      ∨ c ∈ (strategy3 env p e (strategy2 env p e (strategy1 env p).1).1).2
      ∨ c ∈ (createStep env p e n).2 := by
    rw [resolveBlock] at hc
    cases h3 : (strategy3 env p e (strategy2 env p e (strategy1 env p).1).1).1 with
    | error err =>
      rw [h3] at hc
      simp only [List.mem_append] at hc
      tauto
    | ok found =>
      cases found with
      | some c0 =>
        rw [h3] at hc
        simp only [List.mem_append] at hc
        tauto
      | none =>
        rw [h3] at hc
        simp only [List.mem_append] at hc
        tauto
  rcases covered with hm | hm | hm | hm
  · rcases strategy1_calls env p c hm with ⟨rfl, -⟩
    rfl
  · rcases strategy2_calls env p e _ c hm with ⟨rfl, -⟩
    rfl
  · rcases strategy3_calls env p e _ c hm with ⟨pg, rfl⟩
    rfl
  · rw [createStep_calls env p e n c hm]
    rfl

theorem resolveBlock_pageFetch_le (env : Env) (p e n : Option String) :
    ((resolveBlock env p e n).2.countP isPageFetch) ≤ 50 := by
  have c1 : (strategy1 env p).2.countP isPageFetch = 0 := by
    refine List.countP_eq_zero.mpr ?_
    intro c hc
    rcases strategy1_calls env p c hc with ⟨rfl, hp⟩
    rcases isTruthy_exists hp with ⟨s, rfl, -⟩
    simp [isPageFetch]
  have c2 : (strategy2 env p e (strategy1 env p).1).2.countP isPageFetch = 0 := by
    refine List.countP_eq_zero.mpr ?_
    intro c hc
    rcases strategy2_calls env p e _ c hc with ⟨rfl, he⟩
    rcases isTruthy_exists he with ⟨s, rfl, -⟩
    simp [isPageFetch]
  have c3 : (strategy3 env p e (strategy2 env p e (strategy1 env p).1).1).2.countP
      isPageFetch ≤ 50 :=
    le_trans (List.countP_le_length _) (strategy3_length env p e _)
  have c4 : (createStep env p e n).2.countP isPageFetch = 0 := by
    refine List.countP_eq_zero.mpr ?_
    intro c hc
    rw [createStep_calls env p e n c hc]
    simp [isPageFetch]
  rw [resolveBlock]
  cases h3 : (strategy3 env p e (strategy2 env p e (strategy1 env p).1).1).1 with
  | error err =>
    simp only [List.countP_append]
    omega
  | ok found =>
    cases found with
    | some c0 =>
      simp only [List.countP_append]
      omega
    | none =>
      simp only [List.countP_append]
      omega

theorem resolveConsumer_truthy (env : Env) (cid p e n : Option String)
    (h : isTruthy cid = true) :
    resolveConsumer env cid p e n = (.ok cid, []) := by
  simp [resolveConsumer, h]

theorem resolveConsumer_no_paymentLink (env : Env) (cid p e n : Option String) :
    ∀ c ∈ (resolveConsumer env cid p e n).2, isCreatePaymentLinkCall c = false := by
  intro c hc
  rw [resolveConsumer] at hc
  split at hc
  · exact resolveBlock_no_paymentLink env p e n c hc
  · simp at hc

theorem resolveConsumer_pageFetch_le (env : Env) (cid p e n : Option String) :
    ((resolveConsumer env cid p e n).2.countP isPageFetch) ≤ 50 := by
  rw [resolveConsumer]
  split
  · exact resolveBlock_pageFetch_le env p e n
  · simp

theorem checkout_trace (env : Env) (cfg : CheckoutConfig) (now : Nat) (q : Query) :
    (((parseProductIds q.products).length == 0) = true
        ∧ (Checkout env cfg now q).2 = [])
    ∨ ((∃ err, (resolveConsumer env q.customerId q.customerPhone q.customerEmail
            q.customerName).1 = .error err)
        ∧ (Checkout env cfg now q).2 =
            (resolveConsumer env q.customerId q.customerPhone q.customerEmail
              q.customerName).2)
    ∨ ∃ cid, (resolveConsumer env q.customerId q.customerPhone q.customerEmail
          q.customerName).1 = .ok cid
        ∧ (Checkout env cfg now q).2 =
            (resolveConsumer env q.customerId q.customerPhone q.customerEmail
              q.customerName).2
              ++ [RemoteCall.createPaymentLink (paymentLinkDataOf env cfg now q cid)] := by
  rw [Checkout]
  split
  · left
    constructor
    · assumption
    · rfl
  · rcases hres : resolveConsumer env q.customerId q.customerPhone q.customerEmail
        q.customerName with ⟨res, t⟩
    cases res with
    | error err =>
      right
      left
      exact ⟨⟨err, by simp [hres]⟩, by simp [hres]⟩
    | ok cid =>
      right
      right
      refine ⟨cid, by simp [hres], ?_⟩
      cases hlink : env.createPaymentLink (paymentLinkDataOf env cfg now q cid) with
      | error err => simp [hres, hlink]
      | ok link =>
        by_cases hurl : isTruthy (env.getPaymentUrl link) = true
        · simp [hres, hlink, hurl]
        · simp [hres, hlink, hurl]

theorem checkout_paymentLink_data (env : Env) (cfg : CheckoutConfig) (now : Nat)
    (q : Query) :
    ∀ d, RemoteCall.createPaymentLink d ∈ (Checkout env cfg now q).2 →
      ∃ cid, (resolveConsumer env q.customerId q.customerPhone q.customerEmail
          q.customerName).1 = .ok cid
        ∧ d = paymentLinkDataOf env cfg now q cid := by
  intro d hd
  rcases checkout_trace env cfg now q with ⟨-, ht⟩ | ⟨-, ht⟩ | ⟨cid, hcid, ht⟩
  · rw [ht] at hd
    simp at hd
  · rw [ht] at hd
    have := resolveConsumer_no_paymentLink env q.customerId q.customerPhone
      q.customerEmail q.customerName _ hd
    simp [isCreatePaymentLinkCall] at this
  · rw [ht] at hd
    rcases List.mem_append.mp hd with hmem | hmem
    · have := resolveConsumer_no_paymentLink env q.customerId q.customerPhone
        q.customerEmail q.customerName _ hmem
      simp [isCreatePaymentLinkCall] at this
    · have h := List.mem_singleton.mp hmem
      injection h with h1
      exact ⟨cid, hcid, h1⟩

theorem checkout_paymentLink_calls (env : Env) (cfg : CheckoutConfig) (now : Nat)
    (q : Query) :
    ∀ d, RemoteCall.createPaymentLink d ∈ (Checkout env cfg now q).2 →
      d.items = (parseProductIds q.products).map
        (fun i => { product_id := i, quantity := 1 })
      ∧ d.metadata = metadataField env q.metadata
      ∧ d.organization_consumer_id ≠ some ""
      ∧ (isTruthy q.customerId = true → d.organization_consumer_id = q.customerId) := by
  intro d hd
  rcases checkout_paymentLink_data env cfg now q d hd with ⟨cid, hcid, rfl⟩
  refine ⟨rfl, rfl, attached_id_ne_empty cid, ?_⟩
  intro hid
  have hres := resolveConsumer_truthy env q.customerId q.customerPhone
    q.customerEmail q.customerName hid
  rw [hres] at hcid
  have hcid2 : cid = q.customerId := by
    injection hcid with h1
    exact h1.symm
  subst hcid2
  simp [paymentLinkDataOf, hid]

theorem checkout_pageFetch_le (env : Env) (cfg : CheckoutConfig) (now : Nat)
    (q : Query) :
    ((Checkout env cfg now q).2.countP isPageFetch) ≤ 50 := by
  have hle := resolveConsumer_pageFetch_le env q.customerId q.customerPhone
    q.customerEmail q.customerName
  rcases checkout_trace env cfg now q with ⟨-, ht⟩ | ⟨-, ht⟩ | ⟨cid, hcid, ht⟩
  · rw [ht]
    simp
  · rw [ht]
    exact hle
  · rw [ht]
    rw [List.countP_append]
    simp [isPageFetch]
    omega

/-! ## Claims -/

/-- C1 counterexample: for the whitespace-only `products` value `" "` the
handler does not answer 400 — it proceeds to a redirect and does make a
remote call (`createPaymentLink`), because the split produces `[""]`, whose
length is 1, and no empty-segment filtering exists. -/
theorem c1_counterexample :
    (Checkout okEmptyEnv testCfg 0 qWhitespace).1 ≠
      HResponse.badRequest "At least one product ID is required"
    ∧ (Checkout okEmptyEnv testCfg 0 qWhitespace).1 =
        HResponse.redirect "https://pay.example/link_1"
    ∧ (Checkout okEmptyEnv testCfg 0 qWhitespace).2 ≠ [] := by
  refine ⟨?_, ?_, ?_⟩ <;> decide

/-- C1 (amended): a checkout request whose `products` query value is absent or
the empty string is answered 400 with the validation error body and no remote
call is made; a whitespace-or-comma-only non-empty value does not trigger the
validation failure. -/
theorem c1_amended (env : Env) (cfg : CheckoutConfig) (now : Nat) (q : Query)
    (h : q.products = none ∨ q.products = some "") :
    Checkout env cfg now q =
      (.badRequest "At least one product ID is required", []) := by
  have hfalse : isTruthy q.products = false := by
    rcases h with h | h <;> simp [h, isTruthy]
  rw [Checkout]
  simp [parseProductIds, hfalse]

/-- C1 witness: the amended theorem evaluated at the empty-string input. -/
theorem c1_amended_witness :
    Checkout okEmptyEnv testCfg 0 { products := some "" } =
      (.badRequest "At least one product ID is required", []) :=
  c1_amended okEmptyEnv testCfg 0 { products := some "" } (Or.inr rfl)

/-- C5 counterexample: for `products = "a,"` the submitted line-item list has
an entry for the empty trailing segment, so it differs from the one-entry
list the claim predicts for the single non-empty segment. -/
theorem c5_counterexample :
    (Checkout okEmptyEnv testCfg 0 qTrailingComma).2 =
      [RemoteCall.createPaymentLink
        (paymentLinkDataOf okEmptyEnv testCfg 0 qTrailingComma none)]
    ∧ (paymentLinkDataOf okEmptyEnv testCfg 0 qTrailingComma none).items =
        [{ product_id := "a", quantity := 1 }, { product_id := "", quantity := 1 }]
    ∧ ([{ product_id := "a", quantity := 1 }, { product_id := "", quantity := 1 }] :
          List Item) ≠ [{ product_id := "a", quantity := 1 }] := by
  refine ⟨?_, ?_, ?_⟩ <;> decide

/-- C5 (amended): for every truthy `products` value, every payment-link
request submitted carries exactly one line item per comma-separated segment
of `products` — including segments that are empty after trimming — in the
original order, each with quantity 1 and the trimmed segment as product id. -/
theorem c5_amended (env : Env) (cfg : CheckoutConfig) (now : Nat) (q : Query)
    (hp : isTruthy q.products = true) :
    ∀ d, RemoteCall.createPaymentLink d ∈ (Checkout env cfg now q).2 →
      d.items = (jsSplitComma (q.products.getD "")).map
        (fun s => { product_id := jsTrim s, quantity := 1 }) := by
  intro d hd
  have h := (checkout_paymentLink_calls env cfg now q d hd).1
  rw [h]
  simp [parseProductIds, hp, List.map_map]

/-- C5 witness: the amended theorem evaluated on the trailing-comma input. -/
theorem c5_amended_witness :
    (paymentLinkDataOf okEmptyEnv testCfg 0 qTrailingComma none).items =
      [{ product_id := "a", quantity := 1 }, { product_id := "", quantity := 1 }] :=
  (c5_amended okEmptyEnv testCfg 0 qTrailingComma rfl
    (paymentLinkDataOf okEmptyEnv testCfg 0 qTrailingComma none)
    (by decide)).trans (by decide)

/-- C7 counterexample: with a product, a truthy `customerName`, no
`customerId`, and no phone or email, no consumer is ever created — the
creation block is guarded by `customerPhone || customerEmail` — although the
claim requires exactly one `createConsumer` call in this situation. -/
theorem c7_counterexample :
    (Checkout okEmptyEnv testCfg 0 qNameOnly).2.countP isCreateConsumerCall = 0
    ∧ (Checkout okEmptyEnv testCfg 0 qNameOnly).1 =
        HResponse.redirect "https://pay.example/link_1"
    ∧ isTruthy qNameOnly.customerName = true
    ∧ qNameOnly.customerId = none := by
  refine ⟨?_, ?_, ?_, ?_⟩ <;> decide

/-- C2: evaluation of the code at the failing input.  With no `customerPhone`
and `customerEmail = "a@b.c"`, the email search returns the single consumer
`ghostConsumer`, which has neither an email nor a phone number; the strategy
accepts it anyway — `c.phone_number === customerPhone` compares `undefined`
with `undefined` — and its id is attached to the payment-link request,
although both the claim and the code comment require a match on one of the
two fields. -/
theorem c2_code_eval :
    ghostConsumer.email = none
    ∧ ghostConsumer.phone_number = none
    ∧ qEmailOnly.customerPhone = none
    ∧ (Checkout ghostEnv testCfg 0 qEmailOnly).2 =
        [RemoteCall.listConsumers 1 100 (some "a@b.c"),
          RemoteCall.createPaymentLink
            (paymentLinkDataOf ghostEnv testCfg 0 qEmailOnly (some "cons_ghost"))]
    ∧ (paymentLinkDataOf ghostEnv testCfg 0 qEmailOnly
        (some "cons_ghost")).organization_consumer_id = some "cons_ghost" := by
  refine ⟨?_, ?_, ?_, ?_, ?_⟩ <;> decide

theorem paymentLinkDataOf_congr (env : Env) (cfg : CheckoutConfig) (now : Nat)
    (q q2 : Query) (cid : Option String)
    (hname : q.name = q2.name)
    (hprod : q.products = q2.products)
    (hmeta : metadataField env q.metadata = metadataField env q2.metadata) :
    paymentLinkDataOf env cfg now q cid = paymentLinkDataOf env cfg now q2 cid := by
  rw [paymentLinkDataOf, paymentLinkDataOf, hname, hprod, hmeta]

theorem checkout_congr (env : Env) (cfg : CheckoutConfig) (now : Nat)
    (q q2 : Query)
    (hprod : q.products = q2.products)
    (hname : q.name = q2.name)
    (hid : q.customerId = q2.customerId)
    (hemail : q.customerEmail = q2.customerEmail)
    (hcname : q.customerName = q2.customerName)
    (hphone : q.customerPhone = q2.customerPhone)
    (hmeta : metadataField env q.metadata = metadataField env q2.metadata) :
    Checkout env cfg now q = Checkout env cfg now q2 := by
  have hdata : ∀ cid, paymentLinkDataOf env cfg now q cid
      = paymentLinkDataOf env cfg now q2 cid :=
    fun cid => paymentLinkDataOf_congr env cfg now q q2 cid hname hprod hmeta
  rw [Checkout]
  conv_rhs => rw [Checkout]
  rw [hprod, hid, hemail, hcname, hphone]
  simp only [hdata]

theorem resolveConsumer_emptyId (env : Env) (p e n : Option String) :
    ((resolveConsumer env (some "") p e n).1.map fun c =>
        if isTruthy c then c else none)
      = ((resolveConsumer env none p e n).1.map fun c =>
          if isTruthy c then c else none)
    ∧ (resolveConsumer env (some "") p e n).2
      = (resolveConsumer env none p e n).2 := by
  have g1 : isTruthy (some "") = false := by simp [isTruthy]
  have g2 : isTruthy (none : Option String) = false := rfl
  constructor
  · rw [resolveConsumer, resolveConsumer, g1, g2]
    by_cases hpe : (isTruthy p || isTruthy e) = true
    · simp only [hpe, Bool.not_false, Bool.true_and, if_true]
      rcases hr : resolveBlock env p e n with ⟨res, t⟩
      cases res with
      | error err => rfl
      | ok v =>
        cases v with
        | some i => rfl
        | none => simp [Except.map, g1, g2]
    · simp only [hpe, Bool.not_false, Bool.true_and, if_false]
      simp [Except.map, g1, g2]
  · rw [resolveConsumer, resolveConsumer, g1, g2]
    by_cases hpe : (isTruthy p || isTruthy e) = true
    · simp only [hpe, Bool.not_false, Bool.true_and, if_true]
    · simp only [hpe, Bool.not_false, Bool.true_and, if_false]
      rfl

/-- C6: when a truthy `customerId` is supplied, the handler makes no
`listConsumers` and no `createConsumer` call — regardless of which other
customer fields are present — and that `customerId` is attached to the
payment-link request. -/
theorem c6_customerId_short_circuit (env : Env) (cfg : CheckoutConfig) (now : Nat)
    (q : Query) (h : isTruthy q.customerId = true) :
    (∀ c ∈ (Checkout env cfg now q).2,
        isListConsumersCall c = false ∧ isCreateConsumerCall c = false)
    ∧ ∀ d, RemoteCall.createPaymentLink d ∈ (Checkout env cfg now q).2 →
        d.organization_consumer_id = q.customerId := by
  have hres := resolveConsumer_truthy env q.customerId q.customerPhone
    q.customerEmail q.customerName h
  constructor
  · intro c hc
    rcases checkout_trace env cfg now q with ⟨-, ht⟩ | ⟨-, ht⟩ | ⟨cid, hcid, ht⟩
    · rw [ht] at hc
      simp at hc
    · rw [ht, hres] at hc
      simp at hc
    · rw [ht, hres] at hc
      simp at hc
      subst hc
      exact ⟨rfl, rfl⟩
  · intro d hd
    exact (checkout_paymentLink_calls env cfg now q d hd).2.2.2 h

/-- C6 witness: with `customerId = "cons_7"` and every other customer field
also present, the payment-link request carries exactly that id. -/
theorem c6_witness :
    (paymentLinkDataOf okEmptyEnv testCfg 0 qFull
      (some "cons_7")).organization_consumer_id = some "cons_7" :=
  (c6_customerId_short_circuit okEmptyEnv testCfg 0 qFull rfl).2
    (paymentLinkDataOf okEmptyEnv testCfg 0 qFull (some "cons_7")) (by decide)

/-- C3 counterexample: when the phone search throws (caught, logged) and the
first pagination fetch throws (not caught), the handler forwards the error —
`next(error)` — and never reaches `createPaymentLink`: a failed search does
fail the whole checkout, contradicting the claim. -/
theorem c3_counterexample :
    (Checkout throwEnv testCfg 0 qPhoneOnly).1 = HResponse.nextError
    ∧ (Checkout throwEnv testCfg 0 qPhoneOnly).2 =
        [RemoteCall.listConsumers 1 100 (some "+966501234567"),
          RemoteCall.listConsumers 1 100 none]
    ∧ (Checkout throwEnv testCfg 0 qPhoneOnly).2.countP isCreatePaymentLinkCall
        = 0 := by
  have hm : paginateFrom throwEnv (pageMatcher (some "+966501234567") none) 1
      = (.error (), [RemoteCall.listConsumers 1 100 none]) := by
    rw [paginateFrom]
    rfl
  have h1 : strategy1 throwEnv (some "+966501234567")
      = (none, [RemoteCall.listConsumers 1 100 (some "+966501234567")]) := rfl
  have h2 : strategy2 throwEnv (some "+966501234567") none none = (none, []) := rfl
  have h3 : strategy3 throwEnv (some "+966501234567") none none
      = paginateFrom throwEnv (pageMatcher (some "+966501234567") none) 1 := rfl
  have hblock : resolveBlock throwEnv (some "+966501234567") none none
      = (.error (), [RemoteCall.listConsumers 1 100 (some "+966501234567"),
          RemoteCall.listConsumers 1 100 none]) := by
    rw [resolveBlock]
    simp only [h1, h2, h3, hm]
    rfl
  have hres : resolveConsumer throwEnv none (some "+966501234567") none none
      = (.error (), [RemoteCall.listConsumers 1 100 (some "+966501234567"),
          RemoteCall.listConsumers 1 100 none]) := by
    rw [resolveConsumer]
    simp only [hblock]
    rfl
  refine ⟨?_, ?_, ?_⟩ <;>
    · rw [Checkout]
      simp only [qPhoneOnly, hres]
      rfl

/-- C3 (amended): a thrown search in strategy 1 (phone) or strategy 2 (email)
is caught and treated exactly like a search that found nothing, and
resolution proceeds; but a thrown `listConsumers` during the strategy-3
pagination fallback is not caught — it propagates and the whole checkout
request fails through the error middleware with no payment link created. -/
theorem c3_amended :
    (∀ (env env2 : Env) (p e n : Option String),
      (∀ pg, env.listConsumers pg 100 none = env2.listConsumers pg 100 none) →
      env.createConsumer = env2.createConsumer →
      (isTruthy p = true → env.listConsumers 1 100 p = .error ()
        ∧ ∃ pag, env2.listConsumers 1 100 p =
            .ok { data := some [], pagination := pag }) →
      (isTruthy e = true → env.listConsumers 1 100 e = .error ()
        ∧ ∃ pag, env2.listConsumers 1 100 e =
            .ok { data := some [], pagination := pag }) →
      resolveBlock env p e n = resolveBlock env2 p e n)
    ∧ (∀ (env : Env) (cfg : CheckoutConfig) (now : Nat) (q : Query),
        isTruthy q.products = true →
        isTruthy q.customerId = false →
        isTruthy q.customerPhone = true →
        isTruthy q.customerEmail = false →
        env.listConsumers 1 100 q.customerPhone = .error () →
        env.listConsumers 1 100 none = .error () →
        (Checkout env cfg now q).1 = HResponse.nextError
        ∧ (Checkout env cfg now q).2.countP isCreatePaymentLinkCall = 0) := by
  constructor
  · intro env env2 p e n hpag hcreate hp he
    have hs1 : strategy1 env p = strategy1 env2 p := by
      cases htp : isTruthy p with
      | false => simp [strategy1, htp]
      | true =>
        obtain ⟨ha, pag, hb⟩ := hp htp
        simp [strategy1, htp, ha, hb]
    have hs2 : ∀ prev, strategy2 env p e prev = strategy2 env2 p e prev := by
      intro prev
      cases hg : prev.isNone && isTruthy e with
      | false => simp [strategy2, hg]
      | true =>
        have hte : isTruthy e = true := (Bool.and_eq_true_iff.mp hg).2
        obtain ⟨ha, pag, hb⟩ := he hte
        simp [strategy2, hg, ha, hb]
    have hs3 : ∀ prev, strategy3 env p e prev = strategy3 env2 p e prev := by
      intro prev
      by_cases hg : (prev.isNone && (isTruthy p || isTruthy e)) = true
      · rw [strategy3, strategy3, if_pos hg, if_pos hg]
        exact paginateFrom_congr env env2 (pageMatcher p e) hpag 1
      · rw [strategy3, strategy3, if_neg hg, if_neg hg]
    have hcs : createStep env p e n = createStep env2 p e n := by
      rw [createStep, createStep, hcreate]
    rw [resolveBlock, resolveBlock, hs1, hs2, hs3, hcs]
  · intro env cfg now q hProd hId hP hE herr1 herr2
    have hpagerr : paginateFrom env (pageMatcher q.customerPhone q.customerEmail) 1
        = (.error (), [RemoteCall.listConsumers 1 100 none]) := by
      rw [paginateFrom, herr2]
    have h1 : strategy1 env q.customerPhone
        = (none, [RemoteCall.listConsumers 1 100 q.customerPhone]) := by
      simp [strategy1, hP, herr1]
    have h2 : strategy2 env q.customerPhone q.customerEmail none = (none, []) := by
      simp [strategy2, hE]
    have h3 : strategy3 env q.customerPhone q.customerEmail none
        = (.error (), [RemoteCall.listConsumers 1 100 none]) := by
      rw [strategy3]
      simp [hP, hpagerr]
    have hblock : resolveBlock env q.customerPhone q.customerEmail q.customerName
        = (.error (), [RemoteCall.listConsumers 1 100 q.customerPhone,
            RemoteCall.listConsumers 1 100 none]) := by
      rw [resolveBlock]
      simp [h1, h2, h3]
    have hres : resolveConsumer env q.customerId q.customerPhone q.customerEmail
        q.customerName
        = (.error (), [RemoteCall.listConsumers 1 100 q.customerPhone,
            RemoteCall.listConsumers 1 100 none]) := by
      rw [resolveConsumer]
      simp [hId, hP, hblock, Except.map]
    have hcond := parseProductIds_ne_nil q.products hProd
    constructor
    · rw [Checkout]
      simp [hcond, hres]
    · rw [Checkout]
      simp [hcond, hres, isCreatePaymentLinkCall]

/-- C3 witness: the amended theorem applied to concrete environments — the
equivalence of a throwing search with an empty search result under identical
pagination, and the propagating pagination failure on `throwEnv`. -/
theorem c3_amended_witness :
    resolveBlock searchFailEnv (some "+966501234567") none none
      = resolveBlock searchEmptyEnv (some "+966501234567") none none
    ∧ (Checkout throwEnv testCfg 0 qPhoneOnly).1 = HResponse.nextError :=
  ⟨c3_amended.1 searchFailEnv searchEmptyEnv (some "+966501234567") none none
      (fun _ => rfl) rfl (fun _ => ⟨rfl, none, rfl⟩)
      (fun hx => absurd hx (by decide)),
    (c3_amended.2 throwEnv testCfg 0 qPhoneOnly (by decide) rfl (by decide) rfl
      rfl rfl).1⟩

/-- C4: the pagination fallback performs at most 50 page fetches.  On an
environment whose every page reports `has_next_page = true` it performs
exactly 50 fetches, terminates without error (result `ok none`), and
resolution falls through — here to consumer creation.  At the handler level,
every checkout request performs at most 50 pagination fetches. -/
theorem c4_pagination_bounded :
    (∀ (env : Env) (matcher : Consumer → Bool),
      (paginateFrom env matcher 1).2.length ≤ 50)
    ∧ (∀ matcher : Consumer → Bool,
        (paginateFrom relentlessEnv matcher 1).1 = .ok none
        ∧ (paginateFrom relentlessEnv matcher 1).2.length = 50)
    ∧ (∀ (env : Env) (cfg : CheckoutConfig) (now : Nat) (q : Query),
        (Checkout env cfg now q).2.countP isPageFetch ≤ 50)
    ∧ (resolveBlock relentlessEnv (some "+966501234567") none (some "Ahmad")).1
        = .ok (some "cons_new") := by
  refine ⟨?_, ?_, ?_, ?_⟩
  · intro env matcher
    have := paginateFrom_length env matcher 1 (by omega)
    omega
  · intro matcher
    have h := paginateFrom_relentless matcher 1 (by omega) (by omega)
    refine ⟨h.1, ?_⟩
    have := h.2
    omega
  · exact checkout_pageFetch_le
  · have heq : strategy3 relentlessEnv (some "+966501234567") none none
        = paginateFrom relentlessEnv (pageMatcher (some "+966501234567") none) 1 :=
      rfl
    have h3 : (strategy3 relentlessEnv (some "+966501234567") none none).1
        = .ok none := by
      rw [heq]
      exact (paginateFrom_relentless (pageMatcher (some "+966501234567") none) 1
        (by omega) (by omega)).1
    have h1 : strategy1 relentlessEnv (some "+966501234567")
        = (none, [RemoteCall.listConsumers 1 100 (some "+966501234567")]) := rfl
    have h2 : strategy2 relentlessEnv (some "+966501234567") none none
        = (none, []) := rfl
    rw [resolveBlock]
    simp only [h1, h2]
    rcases hs3 : strategy3 relentlessEnv (some "+966501234567") none none
      with ⟨s3res, s3t⟩
    rw [hs3] at h3
    simp only at h3
    subst h3
    rfl

/-- C7 (amended): with a truthy product list, no truthy `customerId`, at
least one of phone/email truthy (so the resolution block runs), a truthy
`customerName`, a directory in which every search and page returns no
consumer, and a successful creation returning a consumer with truthy id,
exactly one `createConsumer` call is made — with the name plus the truthy
phone and/or email — and the returned id is attached to the payment-link
request. -/
theorem c7_amended (env : Env) (cfg : CheckoutConfig) (now : Nat) (q : Query)
    (nc : Consumer)
    (hp : isTruthy q.products = true)
    (hid : isTruthy q.customerId = false)
    (hpe : (isTruthy q.customerPhone || isTruthy q.customerEmail) = true)
    (hn : isTruthy q.customerName = true)
    (hsearch : ∀ page size term, env.listConsumers page size term =
        .ok { data := some [], pagination := some { has_next_page := false } })
    (hcreate : env.createConsumer
        (consumerDataFrom q.customerPhone q.customerEmail q.customerName) = .ok nc)
    (hncid : isTruthy (some nc.id) = true) :
    (Checkout env cfg now q).2.countP isCreateConsumerCall = 1
    ∧ RemoteCall.createConsumer
        (consumerDataFrom q.customerPhone q.customerEmail q.customerName)
        ∈ (Checkout env cfg now q).2
    ∧ ∀ d, RemoteCall.createPaymentLink d ∈ (Checkout env cfg now q).2 →
        d.organization_consumer_id = some nc.id := by
  have h1 : strategy1 env q.customerPhone
      = (none, if isTruthy q.customerPhone then
          [RemoteCall.listConsumers 1 100 q.customerPhone] else []) := by
    cases hP : isTruthy q.customerPhone <;> simp [strategy1, hP, hsearch]
  have h2 : strategy2 env q.customerPhone q.customerEmail none
      = (none, if isTruthy q.customerEmail then
          [RemoteCall.listConsumers 1 100 q.customerEmail] else []) := by
    cases hE : isTruthy q.customerEmail <;> simp [strategy2, hE, hsearch]
  have hpagq : paginateFrom env (pageMatcher q.customerPhone q.customerEmail) 1
      = (.ok none, [RemoteCall.listConsumers 1 100 none]) := by
    rw [paginateFrom, hsearch]
    simp
  have h3 : strategy3 env q.customerPhone q.customerEmail none
      = (.ok none, [RemoteCall.listConsumers 1 100 none]) := by
    rw [strategy3]
    simp [hpe, hpagq]
  have hcs : createStep env q.customerPhone q.customerEmail q.customerName
      = (.ok (some nc.id), [RemoteCall.createConsumer
          (consumerDataFrom q.customerPhone q.customerEmail q.customerName)]) := by
    simp [createStep, hn, hcreate]
  have hblock : resolveBlock env q.customerPhone q.customerEmail q.customerName
      = (.ok (some nc.id),
          ((if isTruthy q.customerPhone then
            [RemoteCall.listConsumers 1 100 q.customerPhone] else [])
          ++ (if isTruthy q.customerEmail then
            [RemoteCall.listConsumers 1 100 q.customerEmail] else [])
          ++ [RemoteCall.listConsumers 1 100 none])
          ++ [RemoteCall.createConsumer
            (consumerDataFrom q.customerPhone q.customerEmail q.customerName)]) := by
    rw [resolveBlock]
    simp [h1, h2, h3, hcs]
  have hresolve : resolveConsumer env q.customerId q.customerPhone q.customerEmail
      q.customerName
      = (.ok (some nc.id),
          ((if isTruthy q.customerPhone then
            [RemoteCall.listConsumers 1 100 q.customerPhone] else [])
          ++ (if isTruthy q.customerEmail then
            [RemoteCall.listConsumers 1 100 q.customerEmail] else [])
          ++ [RemoteCall.listConsumers 1 100 none])
          ++ [RemoteCall.createConsumer
            (consumerDataFrom q.customerPhone q.customerEmail q.customerName)]) := by
    rw [resolveConsumer]
    simp [hid, hpe, hblock, Except.map]
  have hchk : (Checkout env cfg now q).2
      = (((if isTruthy q.customerPhone then
            [RemoteCall.listConsumers 1 100 q.customerPhone] else [])
          ++ (if isTruthy q.customerEmail then
            [RemoteCall.listConsumers 1 100 q.customerEmail] else [])
          ++ [RemoteCall.listConsumers 1 100 none])
          ++ [RemoteCall.createConsumer
            (consumerDataFrom q.customerPhone q.customerEmail q.customerName)])
        ++ [RemoteCall.createPaymentLink
            (paymentLinkDataOf env cfg now q (some nc.id))] := by
    rcases checkout_trace env cfg now q with ⟨hc, -⟩ | ⟨⟨err, hcode⟩, -⟩
      | ⟨cid, hcid, ht⟩
    · rw [parseProductIds_ne_nil q.products hp] at hc
      exact absurd hc (by simp)
    · rw [hresolve] at hcode
      simp at hcode
    · rw [hresolve] at hcid ht
      simp only at hcid ht
      have : cid = some nc.id := by
        injection hcid with hx
        exact hx.symm
      subst this
      exact ht
  refine ⟨?_, ?_, ?_⟩
  · rw [hchk]
    cases hP : isTruthy q.customerPhone <;> cases hE : isTruthy q.customerEmail <;>
      simp [List.countP_append, isCreateConsumerCall]
  · rw [hchk]
    simp
  · intro d hd
    rcases checkout_paymentLink_data env cfg now q d hd with ⟨cid, hcid, rfl⟩
    rw [hresolve] at hcid
    simp only at hcid
    have : cid = some nc.id := by
      injection hcid with hx
      exact hx.symm
    subst this
    simp [paymentLinkDataOf, hncid]

/-- C7 witness: the amended theorem evaluated on `okEmptyEnv` (an empty
directory) with a phone and a name supplied. -/
theorem c7_amended_witness :
    (Checkout okEmptyEnv testCfg 0 qCreate).2.countP isCreateConsumerCall = 1
    ∧ RemoteCall.createConsumer (consumerDataFrom qCreate.customerPhone
        qCreate.customerEmail qCreate.customerName)
        ∈ (Checkout okEmptyEnv testCfg 0 qCreate).2 :=
  ⟨(c7_amended okEmptyEnv testCfg 0 qCreate { id := "cons_new" } rfl rfl rfl rfl
      (fun _ _ _ => rfl) rfl rfl).1,
    (c7_amended okEmptyEnv testCfg 0 qCreate { id := "cons_new" } rfl rfl rfl rfl
      (fun _ _ _ => rfl) rfl rfl).2.1⟩

/-- C8: a `metadata` value whose URL-decode/JSON-parse fails does not fail
the request — the handler behaves exactly as if `metadata` were absent, and
every payment-link request submitted omits the metadata field entirely. -/
theorem c8_malformed_metadata (env : Env) (cfg : CheckoutConfig) (now : Nat)
    (q : Query) (m : String)
    (hm : q.metadata = some m)
    (hparse : env.parseMetadata m = none) :
    Checkout env cfg now q = Checkout env cfg now { q with metadata := none }
    ∧ ∀ d, RemoteCall.createPaymentLink d ∈ (Checkout env cfg now q).2 →
        d.metadata = none := by
  have hfield : metadataField env q.metadata = none := by
    rw [hm, metadataField]
    by_cases hms : m = ""
    · subst hms
      simp [isTruthy]
    · simp [isTruthy, hms, hparse]
  constructor
  · exact checkout_congr env cfg now q { q with metadata := none } rfl rfl rfl rfl
      rfl rfl (by rw [hfield]; rfl)
  · intro d hd
    have := (checkout_paymentLink_calls env cfg now q d hd).2.1
    rw [this, hfield]

/-- C8 witness: the metadata-equivalence applied to the malformed input
`"not-json"` on `okEmptyEnv`, whose parse always fails. -/
theorem c8_witness :
    Checkout okEmptyEnv testCfg 0 qMeta
      = Checkout okEmptyEnv testCfg 0 { qMeta with metadata := none } :=
  (c8_malformed_metadata okEmptyEnv testCfg 0 qMeta "not-json" rfl rfl).1

/-- C9: both `payment.completed` and `payment.paid` route to the
`onPaymentCompleted` callback, and for a single delivery of either event the
registered callback is invoked exactly once. -/
theorem c9_payment_event_aliases (cfg : WebhookConfigM)
    (h : cfg.registered CallbackKey.onPaymentCompleted = true) :
    routeEvent "payment.completed" = some CallbackKey.onPaymentCompleted
    ∧ routeEvent "payment.paid" = some CallbackKey.onPaymentCompleted
    ∧ (dispatch cfg "payment.completed").count
        (Invocation.specific CallbackKey.onPaymentCompleted) = 1
    ∧ (dispatch cfg "payment.paid").count
        (Invocation.specific CallbackKey.onPaymentCompleted) = 1 := by
  have hr1 : routeEvent "payment.completed" = some CallbackKey.onPaymentCompleted :=
    rfl
  have hr2 : routeEvent "payment.paid" = some CallbackKey.onPaymentCompleted := rfl
  refine ⟨hr1, hr2, ?_, ?_⟩ <;>
  · rw [dispatch]
    first
      | rw [hr1]
      | rw [hr2]
    cases hca : cfg.catchAll <;> simp [h, hca] <;> decide

/-- C9 witness: with every callback registered, a `payment.paid` delivery
invokes `onPaymentCompleted` exactly once. -/
theorem c9_witness :
    (dispatch allHandlersCfg "payment.paid").count
      (Invocation.specific CallbackKey.onPaymentCompleted) = 1 :=
  (c9_payment_event_aliases allHandlersCfg rfl).2.2.2

/-- C10: an empty-string `customerId` behaves exactly like an absent one —
the short-circuit tests truthiness — so resolution still runs, and no
payment-link request ever carries an empty consumer id. -/
theorem c10_empty_customerId (env : Env) (cfg : CheckoutConfig) (now : Nat)
    (q : Query) :
    Checkout env cfg now { q with customerId := some "" }
      = Checkout env cfg now { q with customerId := none }
    ∧ ∀ d, RemoteCall.createPaymentLink d ∈ (Checkout env cfg now q).2 →
        d.organization_consumer_id ≠ some "" := by
  constructor
  · obtain ⟨hmap, htr⟩ := resolveConsumer_emptyId env q.customerPhone
      q.customerEmail q.customerName
    rcases h1 : resolveConsumer env (some "") q.customerPhone q.customerEmail
      q.customerName with ⟨res1, t1⟩
    rcases h2 : resolveConsumer env none q.customerPhone q.customerEmail
      q.customerName with ⟨res2, t2⟩
    rw [h1, h2] at hmap htr
    simp only at hmap htr
    subst htr
    rw [Checkout]
    conv_rhs => rw [Checkout]
    simp only [h1, h2]
    cases res1 with
    | error e1 =>
      cases res2 with
      | error e2 => rfl
      | ok v2 => simp [Except.map] at hmap
    | ok v1 =>
      cases res2 with
      | error e2 => simp [Except.map] at hmap
      | ok v2 =>
        simp only [Except.map] at hmap
        have hg : (if isTruthy v1 then v1 else none)
            = (if isTruthy v2 then v2 else none) := by
          injection hmap
        have hdata : paymentLinkDataOf env cfg now { q with customerId := some "" } v1
            = paymentLinkDataOf env cfg now { q with customerId := none } v2 := by
          rw [paymentLinkDataOf, paymentLinkDataOf, hg]
        simp only [hdata]
  · intro d hd
    exact (checkout_paymentLink_calls env cfg now q d hd).2.2.1

/-- C10 witness: the equivalence applied to a concrete email-only query. -/
theorem c10_witness :
    Checkout okEmptyEnv testCfg 0 { qEmailOnly with customerId := some "" }
      = Checkout okEmptyEnv testCfg 0 { qEmailOnly with customerId := none } :=
  (c10_empty_customerId okEmptyEnv testCfg 0 qEmailOnly).1

end StreamSDK
